import Mathlib

/-!
Verification of the Spoke editor viewport (`src/client/editor/Viewport.js`)
and the `EulerInput` widget, as a shallow embedding in Lean.

Numbers are modelled as exact rationals (`ℚ`); the JavaScript constant
`Math.PI` is embedded as the exact rational value of the IEEE-754 double
that `Math.PI` denotes, namely `884279719003555 / 2^48`.
-/

namespace Spoke

/-- Exact rational value of the IEEE-754 double `Math.PI`. -/
def mathPI : ℚ := 884279719003555 / 281474976710656

/-! ## Snap and space state of the viewport

`Viewport` stores `snapEnabled`, `snapValues = { translationSnap, rotationSnap }`
and `currentSpace`, and pushes them into the transform gizmo via
`updateSnapSettings` / `setSpace`.  The gizmo's snap increments are a value or
`null`, modelled as `Option ℚ`. -/

/-- The gizmo state that the viewport mutates: the snap increments passed via
`setTranslationSnap` / `setRotationSnap` (`null` becomes `none`) and the
space passed via `setSpace`. -/
structure TransformControlsState where
  translationSnap : Option ℚ
  rotationSnap : Option ℚ
  space : String
deriving DecidableEq, Repr

/-- `this.snapValues` of the viewport. -/
structure SnapValues where
  translationSnap : ℚ
  rotationSnap : ℚ
deriving DecidableEq, Repr

/-- The snap/space related fields of the `Viewport` instance. -/
structure ViewportState where
  snapEnabled : Bool
  snapValues : SnapValues
  currentSpace : String
  transformControls : TransformControlsState
deriving DecidableEq, Repr

/-- `Viewport.updateSnapSettings`: pushes the stored snap values into the
gizmo when snapping is enabled, and `null` otherwise. -/
def updateSnapSettings (s : ViewportState) : ViewportState :=
  { s with transformControls :=
      { s.transformControls with
          translationSnap := if s.snapEnabled then some s.snapValues.translationSnap else none
          rotationSnap := if s.snapEnabled then some s.snapValues.rotationSnap else none } }

/-- `Viewport.toggleSnap`: negate `snapEnabled`, then `updateSnapSettings`. -/
def toggleSnap (s : ViewportState) : ViewportState :=
  updateSnapSettings { s with snapEnabled := !s.snapEnabled }

/-- `Viewport.toggleSpace`: flip `currentSpace` between `"world"` and
`"local"` and pass the new space to the gizmo via `setSpace`. -/
def toggleSpace (s : ViewportState) : ViewportState :=
  let newSpace := if s.currentSpace = "world" then "local" else "world"
  { s with currentSpace := newSpace
           transformControls := { s.transformControls with space := newSpace } }

/-- `Viewport.setSnapValue({ type, value })`: update the snap value selected
by `type` (`"translate"` or `"rotate"`, anything else falls through the
`default` branch unchanged), then `updateSnapSettings`. -/
def setSnapValue (ty : String) (value : ℚ) (s : ViewportState) : ViewportState :=
  updateSnapSettings <|
    if ty = "translate" then
      { s with snapValues := { s.snapValues with translationSnap := value } }
    else if ty = "rotate" then
      { s with snapValues := { s.snapValues with rotationSnap := value } }
    else s

/-- The snap/space state established by the `Viewport` constructor:
`snapEnabled = true`, `snapValues = { translationSnap: 1, rotationSnap: Math.PI / 4 }`,
`currentSpace = "world"`, followed by a call to `updateSnapSettings`.
The gizmo's own initial space is `"world"` (the transform-controls default). -/
def initialViewportState : ViewportState :=
  updateSnapSettings
    { snapEnabled := true
      snapValues := { translationSnap := 1, rotationSnap := mathPI / 4 }
      currentSpace := "world"
      transformControls := { translationSnap := none, rotationSnap := none, space := "world" } }

/-- The invariant claimed for the gizmo snap increments: they equal the stored
snap values when snapping is enabled and `none` (null) when disabled. -/
def snapSettingsInvariant (s : ViewportState) : Prop :=
  s.transformControls.translationSnap
      = (if s.snapEnabled then some s.snapValues.translationSnap else none) ∧
  s.transformControls.rotationSnap
      = (if s.snapEnabled then some s.snapValues.rotationSnap else none)

/-! ## Theorems: snap and space claims -/

/-- C5: for every starting state of the viewport, calling `toggleSnap` twice
in succession returns `snapEnabled` to its original value. -/
theorem toggleSnap_involutive_on_snapEnabled (s : ViewportState) :
    (toggleSnap (toggleSnap s)).snapEnabled = s.snapEnabled := by
  simp [toggleSnap, updateSnapSettings]

/-- C6: `setSnapValue` with type `"translate"` sets only
`snapValues.translationSnap` and leaves `snapValues.rotationSnap` unchanged;
with type `"rotate"` it sets only `snapValues.rotationSnap` and leaves
`snapValues.translationSnap` unchanged; `snapEnabled` and `currentSpace` are
unchanged in both cases. -/
theorem setSnapValue_frame (s : ViewportState) (v : ℚ) :
    ((setSnapValue "translate" v s).snapValues.translationSnap = v ∧
     (setSnapValue "translate" v s).snapValues.rotationSnap = s.snapValues.rotationSnap ∧
     (setSnapValue "translate" v s).snapEnabled = s.snapEnabled ∧
     (setSnapValue "translate" v s).currentSpace = s.currentSpace) ∧
    ((setSnapValue "rotate" v s).snapValues.rotationSnap = v ∧
     (setSnapValue "rotate" v s).snapValues.translationSnap = s.snapValues.translationSnap ∧
     (setSnapValue "rotate" v s).snapEnabled = s.snapEnabled ∧
     (setSnapValue "rotate" v s).currentSpace = s.currentSpace) := by
  simp [setSnapValue, updateSnapSettings]

/-- C7: after construction, after every snap toggle and after every
snap-value set, the gizmo's snap increments equal the stored snap values when
`snapEnabled` is true and `none` (null) when it is false. -/
theorem snapSettingsInvariant_holds :
    snapSettingsInvariant initialViewportState ∧
    (∀ s : ViewportState, snapSettingsInvariant (toggleSnap s)) ∧
    (∀ (ty : String) (v : ℚ) (s : ViewportState),
      snapSettingsInvariant (setSnapValue ty v s)) := by
  refine ⟨?_, ?_, ?_⟩
  · simp [snapSettingsInvariant, initialViewportState, updateSnapSettings]
  · intro s
    simp [snapSettingsInvariant, toggleSnap, updateSnapSettings]
  · intro ty v s
    simp [snapSettingsInvariant, setSnapValue, updateSnapSettings]

/-- C10: the coordinate space starts as `"world"`; every `toggleSpace` maps
`"world"` to `"local"` and `"local"` to `"world"`; every state reachable from
the initial one by iterating `toggleSpace` has space `"world"` or `"local"`;
and on such states `toggleSpace` is an involution. -/
theorem toggleSpace_world_local :
    initialViewportState.currentSpace = "world" ∧
    (∀ s : ViewportState, s.currentSpace = "world" →
      (toggleSpace s).currentSpace = "local") ∧
    (∀ s : ViewportState, s.currentSpace = "local" →
      (toggleSpace s).currentSpace = "world") ∧
    (∀ n : ℕ, (toggleSpace^[n] initialViewportState).currentSpace = "world" ∨
      (toggleSpace^[n] initialViewportState).currentSpace = "local") ∧
    (∀ s : ViewportState,
      s.currentSpace = "world" ∨ s.currentSpace = "local" →
      (toggleSpace (toggleSpace s)).currentSpace = s.currentSpace) := by
  refine ⟨rfl, ?_, ?_, ?_, ?_⟩
  · intro s h
    simp [toggleSpace, h]
  · intro s h
    simp [toggleSpace, h]
  · intro n
    induction n with
    | zero => left; rfl
    | succ k ih =>
      rw [Function.iterate_succ_apply']
      rcases ih with h | h
      · right; simp [toggleSpace, h]
      · left; simp [toggleSpace, h]
  · intro s h
    rcases h with h | h <;> simp [toggleSpace, h]

/-- Witness for C10 at a concrete state: toggling twice from a state with
space `"local"` restores `"local"`. -/
theorem toggleSpace_world_local_witness :
    (toggleSpace (toggleSpace
      { snapEnabled := true
        snapValues := { translationSnap := 1, rotationSnap := 2 }
        currentSpace := "local"
        transformControls :=
          { translationSnap := none, rotationSnap := none, space := "local" } })).currentSpace
      = "local" :=
  toggleSpace_world_local.2.2.2.2 _ (Or.inr rfl)

/-! ## Transform gizmo gestures

On the gizmo's `mouseDown` event the viewport clones the attached object's
`position`, `rotation` and `scale` into `objectPositionOnDown` /
`objectRotationOnDown` / `objectScaleOnDown`; on `mouseUp` it compares the
property selected by `getMode()` against the snapshot with `.equals` and, only
when they differ, executes one command through `editor.execute`. -/

/-- A `THREE.Vector3`; `.equals` compares the three components. -/
structure Vector3 where
  x : ℚ
  y : ℚ
  z : ℚ
deriving DecidableEq, Repr

/-- A `THREE.Euler`; `.equals` compares the three angles and the order. -/
structure Euler where
  x : ℚ
  y : ℚ
  z : ℚ
  order : String
deriving DecidableEq, Repr

/-- The transform of the object attached to the gizmo, with its JS identity. -/
structure SceneObject where
  objectId : ℕ
  position : Vector3
  rotation : Euler
  scale : Vector3
deriving DecidableEq, Repr

/-- Modelled from the spec: a command is an immutable record of target node,
property, old value and new value (the `SetPositionCommand` /
`SetRotationCommand` / `SetScaleCommand` classes are not under `src/`; per the
spec they encapsulate a before/after pair for undo/redo, the constructor call
sites in `Viewport.js` passing the current value as the new value and the
gesture-start snapshot as the old value). -/
inductive EditorCommand where
  | setPosition (objectId : ℕ) (newPosition oldPosition : Vector3)
  | setRotation (objectId : ℕ) (newRotation oldRotation : Euler)
  | setScale (objectId : ℕ) (newScale oldScale : Vector3)
deriving DecidableEq, Repr

/-- `objectPositionOnDown` / `objectRotationOnDown` / `objectScaleOnDown`. -/
structure TransformSnapshot where
  positionOnDown : Vector3
  rotationOnDown : Euler
  scaleOnDown : Vector3
deriving DecidableEq, Repr

/-- The gizmo `mouseDown` handler: clone the attached object's position,
rotation and scale into the `...OnDown` variables. -/
def onGizmoMouseDown (object : SceneObject) : TransformSnapshot :=
  { positionOnDown := object.position
    rotationOnDown := object.rotation
    scaleOnDown := object.scale }

/-- The gizmo `mouseUp` handler: when an object is attached, switch on
`getMode()` and execute one command when the corresponding property differs
from its `...OnDown` snapshot.  The returned list is the sequence of commands
passed to `editor.execute`. -/
def onGizmoMouseUp (mode : String) (snap : TransformSnapshot)
    (object : Option SceneObject) : List EditorCommand :=
  match object with
  | none => []
  | some obj =>
    if mode = "translate" then
      if snap.positionOnDown = obj.position then []
      else [EditorCommand.setPosition obj.objectId obj.position snap.positionOnDown]
    else if mode = "rotate" then
      if snap.rotationOnDown = obj.rotation then []
      else [EditorCommand.setRotation obj.objectId obj.rotation snap.rotationOnDown]
    else if mode = "scale" then
      if snap.scaleOnDown = obj.scale then []
      else [EditorCommand.setScale obj.objectId obj.scale snap.scaleOnDown]
    else []

/-- The commands executed by a whole gesture: `mouseDown` on `objDown`
(the attached object at gesture start), then `mouseUp` in mode `mode` with the
same object now reading `objUp`. -/
def gizmoGestureCommands (mode : String) (objDown objUp : SceneObject) :
    List EditorCommand :=
  onGizmoMouseUp mode (onGizmoMouseDown objDown) (some objUp)

/-- C1: a transform gesture in each of the three modes executes no command
when the property for that mode still equals its gesture-start snapshot, and
exactly the one matching command, carrying the current value as new value and
the snapshot as old value, when it differs. -/
theorem gizmoGesture_commands_correct (objDown objUp : SceneObject) :
    ((objUp.position = objDown.position →
        gizmoGestureCommands "translate" objDown objUp = []) ∧
     (objUp.position ≠ objDown.position →
        gizmoGestureCommands "translate" objDown objUp =
          [EditorCommand.setPosition objUp.objectId objUp.position objDown.position])) ∧
    ((objUp.rotation = objDown.rotation →
        gizmoGestureCommands "rotate" objDown objUp = []) ∧
     (objUp.rotation ≠ objDown.rotation →
        gizmoGestureCommands "rotate" objDown objUp =
          [EditorCommand.setRotation objUp.objectId objUp.rotation objDown.rotation])) ∧
    ((objUp.scale = objDown.scale →
        gizmoGestureCommands "scale" objDown objUp = []) ∧
     (objUp.scale ≠ objDown.scale →
        gizmoGestureCommands "scale" objDown objUp =
          [EditorCommand.setScale objUp.objectId objUp.scale objDown.scale])) := by
  refine ⟨⟨?_, ?_⟩, ⟨?_, ?_⟩, ⟨?_, ?_⟩⟩ <;> intro h <;>
    simp [gizmoGestureCommands, onGizmoMouseUp, onGizmoMouseDown, h] <;>
    exact Ne.symm h

/-- Witness for C1: a concrete gesture that moves the object along x executes
exactly one `SetPositionCommand` with the new and old positions. -/
theorem gizmoGesture_commands_correct_witness :
    gizmoGestureCommands "translate"
        { objectId := 7
          position := { x := 0, y := 0, z := 0 }
          rotation := { x := 0, y := 0, z := 0, order := "XYZ" }
          scale := { x := 1, y := 1, z := 1 } }
        { objectId := 7
          position := { x := 5, y := 0, z := 0 }
          rotation := { x := 0, y := 0, z := 0, order := "XYZ" }
          scale := { x := 1, y := 1, z := 1 } } =
      [EditorCommand.setPosition 7 { x := 5, y := 0, z := 0 } { x := 0, y := 0, z := 0 }] :=
  (gizmoGesture_commands_correct _ _).1.2 (by decide)

/-! ## Screenshot capture

`takeScreenshot` swaps `this.renderer` for the fixed 1920×1080 offscreen
renderer, suspends the render loop via `_skipRender`, changes the camera
aspect, renders twice around an `onRendererChanged` notification, captures the
canvas blob, and then restores aspect, `_skipRender` and `renderer`.  The
image-encoding step (`getCanvasBlob`) always resolves, possibly with a null
blob; it is modelled as an arbitrary `Option ℕ` input. -/

/-- The `Viewport` fields read and written by `takeScreenshot`.  Renderers,
blobs and matrices are identified by natural numbers. -/
structure ScreenshotViewportState where
  renderer : ℕ
  screenshotRenderer : ℕ
  skipRender : Bool
  cameraAspect : ℚ
  cameraLayer1Enabled : Bool
  cameraMatrixWorld : ℕ
deriving DecidableEq, Repr

/-- The value returned by `takeScreenshot`: the encoded blob (possibly null)
and the clone of the camera's world matrix taken at capture time. -/
structure ScreenshotResult where
  blob : Option ℕ
  cameraTransform : ℕ
deriving DecidableEq, Repr

/-- `Viewport.takeScreenshot`, as a state transformer: save `this.renderer`
and the camera aspect, switch to the screenshot renderer with `_skipRender`
set and aspect `1920 / 1080`, disable then re-enable camera layer 1 around
the two renders, clone the camera world matrix, await the canvas blob
(`encodedBlob`), then restore aspect, `_skipRender` and `renderer`. -/
def takeScreenshot (s : ScreenshotViewportState) (encodedBlob : Option ℕ) :
    ScreenshotViewportState × ScreenshotResult :=
  let originalRenderer := s.renderer
  let s1 := { s with renderer := s.screenshotRenderer, skipRender := true }
  let prevAspect := s1.cameraAspect
  let s2 := { s1 with cameraAspect := 1920 / 1080 }
  let s3 := { s2 with cameraLayer1Enabled := false }
  let s4 := { s3 with cameraLayer1Enabled := true }
  let cameraTransform := s4.cameraMatrixWorld
  let s5 := { s4 with cameraAspect := prevAspect
                      skipRender := false
                      renderer := originalRenderer }
  (s5, { blob := encodedBlob, cameraTransform := cameraTransform })

/-- C3: from any pre-capture state in which no capture is in flight
(`_skipRender = false`, which holds at every invocation in the
run-to-completion event-loop model since only `takeScreenshot` sets the flag),
`takeScreenshot` returns with `renderer`, the camera aspect and `_skipRender`
equal to their pre-call values, whatever the image-encoding step yields. -/
theorem takeScreenshot_restores_state (s : ScreenshotViewportState)
    (encodedBlob : Option ℕ) (h : s.skipRender = false) :
    (takeScreenshot s encodedBlob).1.renderer = s.renderer ∧
    (takeScreenshot s encodedBlob).1.cameraAspect = s.cameraAspect ∧
    (takeScreenshot s encodedBlob).1.skipRender = s.skipRender := by
  simp [takeScreenshot, h]

/-- Witness for C3 at a concrete state, with the encoding step yielding a
null blob. -/
theorem takeScreenshot_restores_state_witness :
    (takeScreenshot
        { renderer := 1, screenshotRenderer := 2, skipRender := false
          cameraAspect := 4 / 3, cameraLayer1Enabled := true
          cameraMatrixWorld := 9 } none).1.renderer = 1 ∧
    (takeScreenshot
        { renderer := 1, screenshotRenderer := 2, skipRender := false
          cameraAspect := 4 / 3, cameraLayer1Enabled := true
          cameraMatrixWorld := 9 } none).1.cameraAspect = 4 / 3 ∧
    (takeScreenshot
        { renderer := 1, screenshotRenderer := 2, skipRender := false
          cameraAspect := 4 / 3, cameraLayer1Enabled := true
          cameraMatrixWorld := 9 } none).1.skipRender = false :=
  takeScreenshot_restores_state _ none rfl

/-! ## Object picking

`getIntersectingNode(point, scene)` raycasts against the full scene and, for
each intersection in near-to-far order, walks the intersected object's parent
links to the first ancestor with `isNode`; the first such ancestor that is
not `editor.scene` is returned, and `null` otherwise.  The raycast itself is
vendor code, so an intersection is modelled by the ancestor chain
`[object, object.parent, …]` that the `while` loop walks. -/

/-- A normalized canvas coordinate (`THREE.Vector2`). -/
structure Vector2 where
  x : ℚ
  y : ℚ
deriving DecidableEq, Repr

/-- The squared distance between two `THREE.Vector2`; over exact numbers
`a.distanceTo(b) === 0` holds exactly when `distanceSq a b = 0`. -/
def distanceSq (a b : Vector2) : ℚ :=
  (a.x - b.x) ^ 2 + (a.y - b.y) ^ 2

/-- An object of the scene graph, with its JS identity and `isNode` flag. -/
structure SceneNode where
  nodeId : ℕ
  isNode : Bool
deriving DecidableEq, Repr

/-- The body of the result loop of `getIntersectingNode` on one intersected
object, given as its ancestor chain: the `while` loop stops at the first
ancestor with `isNode` (or at `null`), and the candidate is kept only when it
exists and is not `editor.scene`. -/
def chainPick (scene : SceneNode) (chain : List SceneNode) : Option SceneNode :=
  (chain.find? (fun o => o.isNode)).bind
    (fun c => if c = scene then none else some c)

/-- `getIntersectingNode(point, scene)`: return the first kept candidate over
the raycast results in order, or `null`. -/
def getIntersectingNode (results : List (List SceneNode)) (scene : SceneNode) :
    Option SceneNode :=
  results.findSome? (chainPick scene)

/-- A call into the editor's selection interface. -/
inductive SelectionAction where
  | select (node : SceneNode)
  | deselect
deriving DecidableEq, Repr

/-- `handleClick`: when `onDownPosition.distanceTo(onUpPosition) === 0`,
select the picked node or deselect when none is found; when the positions
differ, make no selection call at all (`none`).  `results` is the raycast
through the up position. -/
def handleClick (onDownPosition onUpPosition : Vector2)
    (results : List (List SceneNode)) (scene : SceneNode) :
    Option SelectionAction :=
  if distanceSq onDownPosition onUpPosition = 0 then
    match getIntersectingNode results scene with
    | some node => some (SelectionAction.select node)
    | none => some SelectionAction.deselect
  else
    none

/-- An ancestor chain obtained by walking parent links from an object
intersected inside the scene: it ends at the scene root, which does not occur
earlier in the chain. -/
def chainRootedAt (scene : SceneNode) (chain : List SceneNode) : Prop :=
  ∃ front, chain = front ++ [scene] ∧ scene ∉ front

/-- The node designated by the claims: for the first intersected object whose
ancestor chain contains a selectable node (`isNode` set and not the scene
root), the nearest such node in its chain. -/
def firstSelectableNode (results : List (List SceneNode)) (scene : SceneNode) :
    Option SceneNode :=
  results.findSome?
    (fun chain => chain.find? (fun o => o.isNode && decide (o ≠ scene)))

theorem distanceSq_eq_zero_iff (a b : Vector2) : distanceSq a b = 0 ↔ a = b := by
  constructor
  · intro h
    have hx2 : (a.x - b.x) ^ 2 = 0 := by
      have := sq_nonneg (a.y - b.y)
      have := sq_nonneg (a.x - b.x)
      unfold distanceSq at h
      linarith
    have hy2 : (a.y - b.y) ^ 2 = 0 := by
      have := sq_nonneg (a.y - b.y)
      have := sq_nonneg (a.x - b.x)
      unfold distanceSq at h
      linarith
    have hx : a.x = b.x :=
      sub_eq_zero.mp ((pow_eq_zero_iff (by norm_num : (2 : ℕ) ≠ 0)).mp hx2)
    have hy : a.y = b.y :=
      sub_eq_zero.mp ((pow_eq_zero_iff (by norm_num : (2 : ℕ) ≠ 0)).mp hy2)
    cases a
    cases b
    simp_all
  · rintro rfl
    simp [distanceSq]

/-- On a well-formed ancestor chain, the loop-with-break of the source
(`chainPick`) finds exactly the nearest selectable node of the chain. -/
theorem chainPick_eq_find_selectable (scene : SceneNode) (front : List SceneNode)
    (hfront : scene ∉ front) :
    chainPick scene (front ++ [scene]) =
      (front ++ [scene]).find? (fun o => o.isNode && decide (o ≠ scene)) := by
  induction front with
  | nil =>
    cases h : scene.isNode <;>
      simp [chainPick, List.find?, h]
  | cons a f ih =>
    have ha : a ≠ scene := by
      rintro rfl
      exact hfront (List.mem_cons_self a f)
    have hf : scene ∉ f := fun hmem => hfront (List.mem_cons_of_mem _ hmem)
    rw [List.cons_append]
    cases hn : a.isNode
    · have hl : chainPick scene (a :: (f ++ [scene])) = chainPick scene (f ++ [scene]) := by
        simp [chainPick, List.find?_cons, hn]
      rw [hl, List.find?_cons]
      simp only [hn, Bool.false_and]
      exact ih hf
    · have hl : chainPick scene (a :: (f ++ [scene])) = some a := by
        simp [chainPick, List.find?_cons, hn, ha]
      rw [hl, List.find?_cons]
      simp [hn, ha]

/-- On well-formed raycast results, `getIntersectingNode` returns exactly the
node designated by the claims. -/
theorem getIntersectingNode_eq_firstSelectable (results : List (List SceneNode))
    (scene : SceneNode) (hwf : ∀ chain ∈ results, chainRootedAt scene chain) :
    getIntersectingNode results scene = firstSelectableNode results scene := by
  induction results with
  | nil => rfl
  | cons c t ih =>
    obtain ⟨front, rfl, hfront⟩ := hwf c (List.mem_cons_self c t)
    simp only [getIntersectingNode, firstSelectableNode, List.findSome?_cons]
    rw [chainPick_eq_find_selectable scene front hfront]
    cases h : (front ++ [scene]).find? (fun o => o.isNode && decide (o ≠ scene)) with
    | some n => simp
    | none =>
      simp only []
      exact ih (fun chain hc => hwf chain (List.mem_cons_of_mem _ hc))

/-- C2 counterexample: with the pointer pressed at `(0,0)` and released at
`(1,0)`, `handleClick` makes no selection call at all, in particular it does
not call `editor.deselect`. -/
theorem handleClick_moved_pointer_counterexample :
    handleClick { x := 0, y := 0 } { x := 1, y := 0 } []
        { nodeId := 0, isNode := true } = none ∧
    (none : Option SelectionAction) ≠ some SelectionAction.deselect := by
  constructor
  · have h1 : distanceSq { x := 0, y := 0 } { x := 1, y := 0 } = 1 := by
      norm_num [distanceSq]
    simp [handleClick, h1]
  · simp

/-- C2 (amended): for pointer-down/up pairs at the same coordinate, the click
handler selects the nearest selectable node of the first intersection whose
ancestor chain contains one, and deselects when no intersection has one; for
pairs at different coordinates it makes no selection call. -/
theorem handleClick_selection (down up : Vector2)
    (results : List (List SceneNode)) (scene : SceneNode)
    (hwf : ∀ chain ∈ results, chainRootedAt scene chain) :
    (down = up →
      handleClick down up results scene =
        some (match firstSelectableNode results scene with
              | some n => SelectionAction.select n
              | none => SelectionAction.deselect)) ∧
    (down ≠ up → handleClick down up results scene = none) := by
  constructor
  · rintro rfl
    have h0 : distanceSq down down = 0 := by simp [distanceSq]
    simp only [handleClick, h0, if_pos]
    rw [getIntersectingNode_eq_firstSelectable results scene hwf]
    cases firstSelectableNode results scene <;> rfl
  · intro h
    simp only [handleClick, ite_eq_right_iff]
    intro h0
    exact absurd ((distanceSq_eq_zero_iff down up).mp h0) h

/-- A concrete intersected mesh that is not itself a node. -/
def sampleMesh : SceneNode := { nodeId := 10, isNode := false }

/-- A concrete selectable node, parent of `sampleMesh`. -/
def sampleNode : SceneNode := { nodeId := 11, isNode := true }

/-- A concrete scene root. -/
def sampleScene : SceneNode := { nodeId := 0, isNode := true }

/-- Witness for C2: clicking without moving the pointer, on a mesh whose
parent is a selectable node, selects that node; releasing elsewhere makes no
selection call. -/
theorem handleClick_selection_witness :
    handleClick { x := 0, y := 0 } { x := 0, y := 0 }
        [[sampleMesh, sampleNode, sampleScene]] sampleScene =
      some (SelectionAction.select sampleNode) ∧
    handleClick { x := 0, y := 0 } { x := 1, y := 0 }
        [[sampleMesh, sampleNode, sampleScene]] sampleScene = none := by
  have hwf : ∀ chain ∈ [[sampleMesh, sampleNode, sampleScene]],
      chainRootedAt sampleScene chain := by
    intro chain hc
    simp only [List.mem_singleton] at hc
    subst hc
    exact ⟨[sampleMesh, sampleNode], rfl, by decide⟩
  constructor
  · have h := (handleClick_selection { x := 0, y := 0 } { x := 0, y := 0 }
      [[sampleMesh, sampleNode, sampleScene]] sampleScene hwf).1 rfl
    rw [h]
    rfl
  · exact (handleClick_selection { x := 0, y := 0 } { x := 1, y := 0 }
      [[sampleMesh, sampleNode, sampleScene]] sampleScene hwf).2
        (by intro h; cases h)

/-- C9: on well-formed raycast results, picking yields only nodes with
`isNode` set that lie strictly below the scene root (they occur in some
intersection's ancestor chain before its final scene element), or `null`; so
the click handler never selects the scene root. -/
theorem getIntersectingNode_never_scene (results : List (List SceneNode))
    (scene : SceneNode) (hwf : ∀ chain ∈ results, chainRootedAt scene chain) :
    (∀ n, getIntersectingNode results scene = some n →
        n.isNode = true ∧ n ≠ scene ∧
        ∃ chain ∈ results, ∃ front, chain = front ++ [scene] ∧ n ∈ front) ∧
    (∀ (down up : Vector2) (n : SceneNode),
        handleClick down up results scene = some (SelectionAction.select n) →
          n ≠ scene) := by
  have main : ∀ n, getIntersectingNode results scene = some n →
      n.isNode = true ∧ n ≠ scene ∧
      ∃ chain ∈ results, ∃ front, chain = front ++ [scene] ∧ n ∈ front := by
    intro n hn
    obtain ⟨chain, hmem, hpick⟩ := List.exists_of_findSome?_eq_some hn
    obtain ⟨c, hfind, hkeep⟩ := Option.bind_eq_some.mp hpick
    have hcn : c = n := by
      by_cases hc : c = scene
      · rw [if_pos hc] at hkeep
        cases hkeep
      · rw [if_neg hc] at hkeep
        exact Option.some.inj hkeep
    subst hcn
    have hne : c ≠ scene := by
      intro hc
      rw [if_pos hc] at hkeep
      cases hkeep
    have hisNode : c.isNode = true := by simpa using List.find?_some hfind
    have hmemChain : c ∈ chain := List.mem_of_find?_eq_some hfind
    obtain ⟨front, rfl, hfront⟩ := hwf chain hmem
    refine ⟨hisNode, hne, front ++ [scene], hmem, front, rfl, ?_⟩
    rcases List.mem_append.mp hmemChain with h | h
    · exact h
    · exact absurd (by simpa using h) hne
  refine ⟨main, ?_⟩
  intro down up n hcall
  unfold handleClick at hcall
  by_cases h0 : distanceSq down up = 0
  · rw [if_pos h0] at hcall
    cases hg : getIntersectingNode results scene with
    | some m =>
      rw [hg] at hcall
      have hmn : m = n := by
        cases Option.some.inj hcall
        rfl
      exact hmn ▸ (main m hg).2.1
    | none =>
      rw [hg] at hcall
      cases Option.some.inj hcall
  · rw [if_neg h0] at hcall
    cases hcall

/-- Witness for C9: in the concrete scene of `handleClick_selection_witness`,
the picked node has `isNode`, differs from the scene root, and sits strictly
below it in the intersection's ancestor chain. -/
theorem getIntersectingNode_never_scene_witness :
    sampleNode.isNode = true ∧ sampleNode ≠ sampleScene ∧
    ∃ chain ∈ [[sampleMesh, sampleNode, sampleScene]],
      ∃ front, chain = front ++ [sampleScene] ∧ sampleNode ∈ front := by
  refine (getIntersectingNode_never_scene [[sampleMesh, sampleNode, sampleScene]]
      sampleScene ?_).1 sampleNode ?_
  · intro chain hc
    simp only [List.mem_singleton] at hc
    subst hc
    exact ⟨[sampleMesh, sampleNode], rfl, by decide⟩
  · rfl

/-! ## Double click -/

/-- The observable effect of the `onDoubleClick` handler: the node passed to
`editor.focus` (if any), and the selection call it makes (it makes none). -/
structure DoubleClickEffect where
  focused : Option SceneNode
  selectionChange : Option SelectionAction
deriving DecidableEq, Repr

/-- `onDoubleClick`: pick at the double-click position and focus the found
node; no `editor.select` / `editor.deselect` call is made.  `results` is the
raycast through the double-click position. -/
def onDoubleClick (results : List (List SceneNode)) (scene : SceneNode) :
    DoubleClickEffect :=
  { focused := getIntersectingNode results scene
    selectionChange := none }

/-- Effect of a selection call (or of its absence) on the editor's selection
state. -/
def applySelection (action : Option SelectionAction) (sel : Option SceneNode) :
    Option SceneNode :=
  match action with
  | some (SelectionAction.select n) => some n
  | some SelectionAction.deselect => none
  | none => sel

/-- C8: when the pick at a double-click position resolves to a node, the
handler focuses that node; it makes no selection call, and the selection
after the browser's double-click event sequence (two clicks at the position,
then the double-click handler) equals the selection after a single click at
that position, from any prior selection. -/
theorem onDoubleClick_focus_selection (results : List (List SceneNode))
    (scene : SceneNode) (p : Vector2) (sel : Option SceneNode) :
    (∀ n, getIntersectingNode results scene = some n →
        (onDoubleClick results scene).focused = some n) ∧
    (onDoubleClick results scene).selectionChange = none ∧
    applySelection (onDoubleClick results scene).selectionChange
        (applySelection (handleClick p p results scene)
          (applySelection (handleClick p p results scene) sel)) =
      applySelection (handleClick p p results scene) sel := by
  refine ⟨fun n hn => by simp [onDoubleClick, hn], rfl, ?_⟩
  have h0 : distanceSq p p = 0 := by simp [distanceSq]
  simp only [handleClick, h0, if_pos, onDoubleClick]
  cases getIntersectingNode results scene <;> rfl

/-- Witness for C8: in the concrete scene of `handleClick_selection_witness`,
the double-click handler focuses the picked node. -/
theorem onDoubleClick_focus_selection_witness :
    (onDoubleClick [[sampleMesh, sampleNode, sampleScene]] sampleScene).focused =
      some sampleNode :=
  (onDoubleClick_focus_selection [[sampleMesh, sampleNode, sampleScene]]
      sampleScene { x := 0, y := 0 } none).1 sampleNode rfl

/-! ## The EulerInput widget

`EulerInput.render` displays `vx = (value.x || 0) * RAD2DEG` (and likewise
for y, z; `0` when `value` is null), and its `onChange(x, y, z)` emits
`new THREE.Euler(x * DEG2RAD, y * DEG2RAD, z * DEG2RAD)`.  `RAD2DEG` and
`DEG2RAD` are `THREE.Math`'s `180 / Math.PI` and `Math.PI / 180`;
with exact arithmetic on `mathPI` their product is exactly `1`. -/

/-- `THREE.Math.RAD2DEG`. -/
def RAD2DEG : ℚ := 180 / mathPI

/-- `THREE.Math.DEG2RAD`. -/
def DEG2RAD : ℚ := mathPI / 180

/-- The `value` prop of `EulerInput`: an object with optional `x`, `y`, `z`
fields in radians (a missing field reads as `0` through `value.x || 0`). -/
structure EulerValueProp where
  x : Option ℚ
  y : Option ℚ
  z : Option ℚ
deriving DecidableEq, Repr

/-- The three degree values displayed by `EulerInput.render`. -/
structure DisplayedDegrees where
  vx : ℚ
  vy : ℚ
  vz : ℚ
deriving DecidableEq, Repr

/-- `EulerInput.render`: `vx = value ? (value.x || 0) * RAD2DEG : 0`, and
likewise for `vy`, `vz`. -/
def eulerInputRender (value : Option EulerValueProp) : DisplayedDegrees :=
  { vx := match value with
          | some v => v.x.getD 0 * RAD2DEG
          | none => 0
    vy := match value with
          | some v => v.y.getD 0 * RAD2DEG
          | none => 0
    vz := match value with
          | some v => v.z.getD 0 * RAD2DEG
          | none => 0 }

/-- `EulerInput.onChange(x, y, z)`: emit
`new THREE.Euler(x * DEG2RAD, y * DEG2RAD, z * DEG2RAD)` (default order
`"XYZ"`) to the upward change callback. -/
def eulerInputOnChange (x y z : ℚ) : Euler :=
  { x := x * DEG2RAD, y := y * DEG2RAD, z := z * DEG2RAD, order := "XYZ" }

/-- C4: feeding Euler radians through the widget's degree display and
reconstructing radians from the displayed degrees reproduces the original
radians (missing axes default to 0) exactly in the exact-arithmetic model,
hence within floating-point tolerance. -/
theorem eulerInput_round_trip (v : EulerValueProp) :
    eulerInputOnChange (eulerInputRender (some v)).vx
        (eulerInputRender (some v)).vy (eulerInputRender (some v)).vz =
      { x := v.x.getD 0, y := v.y.getD 0, z := v.z.getD 0, order := "XYZ" } := by
  have hpi : mathPI ≠ 0 := by norm_num [mathPI]
  simp only [eulerInputOnChange, eulerInputRender, RAD2DEG, DEG2RAD]
  refine Euler.mk.injEq .. ▸ ⟨?_, ?_, ?_, rfl⟩ <;>
    field_simp

end Spoke
